import Mathlib

/-!
Verification of the Rust ↔ LLVM FFI bridge (RustWrapper.cpp / ArchiveWrapper.cpp).

The C++ sources are shallowly embedded: caller-side enums are carried as
their underlying integer codes (`Nat`), backend-native enums as Lean
inductives, nullable pointers as `Option`, out-parameters as explicit state
passing, and the fatal-error path (`report_fatal_error`) as `none` in an
`Option` result.
-/

namespace RustLLVM

/-! ### Backend-native enums (targets of the `fromRust` mappers) -/

/-- `llvm::AtomicOrdering`. -/
inductive AtomicOrdering
  | NotAtomic
  | Unordered
  | Monotonic
  | Acquire
  | Release
  | AcquireRelease
  | SequentiallyConsistent
deriving DecidableEq, Repr

/-- `llvm::SyncScope::ID`, restricted to the two IDs the bridge emits. -/
inductive SyncScopeID
  | SingleThread
  | System
deriving DecidableEq, Repr

/-- `llvm::InlineAsm::AsmDialect`. -/
inductive AsmDialect
  | AD_ATT
  | AD_Intel
deriving DecidableEq, Repr

/-- `llvm::Attribute::AttrKind`, restricted to the kinds the bridge emits. -/
inductive AttrKind
  | AlwaysInline | ByVal | Cold | InlineHint | MinSize | Naked
  | NoAlias | NoCapture | NoInline | NonNull | NoRedZone | NoReturn
  | NoUnwind | OptimizeForSize | ReadOnly | SExt | StructRet | UWTable
  | ZExt | InReg | SanitizeThread | SanitizeAddress | SanitizeMemory
  | NonLazyBind | OptimizeNone | ReturnsTwice | ReadNone | InaccessibleMemOnly
deriving DecidableEq, Repr

/-- `LLVMLinkage` from the backend's C API (all seventeen enumerators, of
which the bridge's `toRust` recognizes eleven). -/
inductive LLVMLinkage
  | External
  | AvailableExternally
  | LinkOnceAny
  | LinkOnceODR
  | LinkOnceODRAutoHide
  | WeakAny
  | WeakODR
  | Appending
  | Internal
  | Private
  | DLLImport
  | DLLExport
  | ExternalWeak
  | Ghost
  | Common
  | LinkerPrivate
  | LinkerPrivateWeak
deriving DecidableEq, Repr

/-- `LLVMVisibility` from the backend's C API. -/
inductive LLVMVisibility
  | Default
  | Hidden
  | Protected
deriving DecidableEq, Repr

/-- `llvm::DICompileUnit::DebugEmissionKind`. -/
inductive DebugEmissionKind
  | NoDebug
  | FullDebug
  | LineTablesOnly
deriving DecidableEq, Repr

/-- `llvm::DIFile::ChecksumKind`. -/
inductive ChecksumKind
  | CSK_MD5
  | CSK_SHA1
deriving DecidableEq, Repr

/-! ### Caller-enum → backend-enum translation (`fromRust` family)

Each caller-side enum travels across the C ABI as an integer, so each
mapper takes the underlying integer code.  A recognized code maps to
`some` backend value; every other code falls into the `switch` default,
`report_fatal_error`, modelled as `none`.

Codes for `LLVMRustSynchronizationScope`, `LLVMRustAsmDialect`,
`LLVMRustLinkage`, `LLVMRustVisibility`, `LLVMRustDebugEmissionKind` and
`LLVMRustChecksumKind` come from the enum declarations in
RustWrapper.cpp itself (explicit for `LLVMRustLinkage`, default
consecutive numbering for the rest).  `LLVMAtomicOrdering` codes are the
backend C API's published values (3 is a hole reserved for a consume
ordering that the C API never exposed).  `LLVMRustAttribute` is declared
in the bridge's header with default consecutive numbering in exactly the
order of the `switch` cases in RustWrapper.cpp. -/

/-- `fromRust(LLVMAtomicOrdering)` (RustWrapper.cpp lines 29-48). -/
def fromRustAtomicOrdering : Nat → Option AtomicOrdering
  | 0 => some .NotAtomic
  | 1 => some .Unordered
  | 2 => some .Monotonic
  | 4 => some .Acquire
  | 5 => some .Release
  | 6 => some .AcquireRelease
  | 7 => some .SequentiallyConsistent
  | _ => none

/-- `fromRust(LLVMRustSynchronizationScope)` (lines 373-382). -/
def fromRustSynchronizationScope : Nat → Option SyncScopeID
  | 0 => some .SingleThread
  | 1 => some .System
  | _ => none

/-- `fromRust(LLVMRustAsmDialect)` (lines 395-404). -/
def fromRustAsmDialect : Nat → Option AsmDialect
  | 0 => some .AD_ATT
  | 1 => some .AD_Intel
  | _ => none

/-- `fromRust(LLVMRustAttribute)` (lines 152-212). -/
def fromRustAttribute : Nat → Option AttrKind
  | 0 => some .AlwaysInline
  | 1 => some .ByVal
  | 2 => some .Cold
  | 3 => some .InlineHint
  | 4 => some .MinSize
  | 5 => some .Naked
  | 6 => some .NoAlias
  | 7 => some .NoCapture
  | 8 => some .NoInline
  | 9 => some .NonNull
  | 10 => some .NoRedZone
  | 11 => some .NoReturn
  | 12 => some .NoUnwind
  | 13 => some .OptimizeForSize
  | 14 => some .ReadOnly
  | 15 => some .SExt
  | 16 => some .StructRet
  | 17 => some .UWTable
  | 18 => some .ZExt
  | 19 => some .InReg
  | 20 => some .SanitizeThread
  | 21 => some .SanitizeAddress
  | 22 => some .SanitizeMemory
  | 23 => some .NonLazyBind
  | 24 => some .OptimizeNone
  | 25 => some .ReturnsTwice
  | 26 => some .ReadNone
  | 27 => some .InaccessibleMemOnly
  | _ => none

/-- `fromRust(LLVMRustLinkage)` (lines 1530-1556); the `LLVMRustLinkage`
codes 0..10 are explicit in the enum declaration (lines 1487-1499). -/
def fromRustLinkage : Nat → Option LLVMLinkage
  | 0 => some .External
  | 1 => some .AvailableExternally
  | 2 => some .LinkOnceAny
  | 3 => some .LinkOnceODR
  | 4 => some .WeakAny
  | 5 => some .WeakODR
  | 6 => some .Appending
  | 7 => some .Internal
  | 8 => some .Private
  | 9 => some .ExternalWeak
  | 10 => some .Common
  | _ => none

/-- `toRust(LLVMLinkage)` (lines 1501-1528): the eleven recognized backend
linkages map back to `LLVMRustLinkage` codes; every other backend linkage
hits the fatal default. -/
def toRustLinkage : LLVMLinkage → Option Nat
  | .External => some 0
  | .AvailableExternally => some 1
  | .LinkOnceAny => some 2
  | .LinkOnceODR => some 3
  | .WeakAny => some 4
  | .WeakODR => some 5
  | .Appending => some 6
  | .Internal => some 7
  | .Private => some 8
  | .ExternalWeak => some 9
  | .Common => some 10
  | _ => none

/-- `fromRust(LLVMRustVisibility)` (lines 1602-1612); codes 0..2 are
explicit in the enum declaration (lines 1584-1588). -/
def fromRustVisibility : Nat → Option LLVMVisibility
  | 0 => some .Default
  | 1 => some .Hidden
  | 2 => some .Protected
  | _ => none

/-- `toRust(LLVMVisibility)` (lines 1590-1600): the switch covers all
three enumerators, so the trailing fatal call is unreachable. -/
def toRustVisibility : LLVMVisibility → Nat
  | .Default => 0
  | .Hidden => 1
  | .Protected => 2

/-- `fromRust(LLVMRustDebugEmissionKind)` (lines 634-645). -/
def fromRustDebugEmissionKind : Nat → Option DebugEmissionKind
  | 0 => some .NoDebug
  | 1 => some .FullDebug
  | 2 => some .LineTablesOnly
  | _ => none

/-- `fromRust(LLVMRustChecksumKind)` (lines 653-664).  The outer `Option`
is the fatal path; the inner one is the `Optional<ChecksumKind>` result
(`None` means no checksum, and is a successful outcome). -/
def fromRustChecksumKind : Nat → Option (Option ChecksumKind)
  | 0 => some none
  | 1 => some (some .CSK_MD5)
  | 2 => some (some .CSK_SHA1)
  | _ => none

/-- The integer codes on which `fromRust(LLVMAtomicOrdering)` does not hit
the fatal default. -/
def atomicOrderingCodes : List Nat := [0, 1, 2, 4, 5, 6, 7]

/-! ### Claim C1: linkage and visibility round-trip -/

/-- Claim C1: for every legal caller-side linkage code (0..10) and every
legal caller-side visibility code (0..2), translating to the backend-native
enum with `fromRust` and translating the result back with `toRust` yields
the original value. -/
theorem linkage_visibility_roundtrip (n : Nat) :
    (n ≤ 10 → (fromRustLinkage n).bind toRustLinkage = some n) ∧
    (n ≤ 2 → (fromRustVisibility n).map toRustVisibility = some n) := by
  constructor <;> intro h <;> interval_cases n <;> rfl

/-- Witness for C1 at the concrete codes 7 (internal linkage) and 2
(protected visibility). -/
theorem linkage_visibility_roundtrip_witness :
    (fromRustLinkage 7).bind toRustLinkage = some 7 ∧
    (fromRustVisibility 2).map toRustVisibility = some 2 :=
  ⟨(linkage_visibility_roundtrip 7).1 (by decide),
   (linkage_visibility_roundtrip 2).2 (by decide)⟩

/-! ### Claim C2: every enum mapper is total on recognized codes and fatal
elsewhere -/

theorem fromRustAtomicOrdering_isSome (n : Nat) :
    (fromRustAtomicOrdering n).isSome ↔ n ∈ atomicOrderingCodes := by
  rcases n with _ | _ | _ | _ | _ | _ | _ | _ | n
  all_goals first
    | decide
    | (simp only [fromRustAtomicOrdering, atomicOrderingCodes, Option.isSome_none,
        List.mem_cons, List.not_mem_nil, or_false]
       constructor
       · intro h; exact absurd h (by simp)
       · intro h; omega)

theorem fromRustSynchronizationScope_isSome (n : Nat) :
    (fromRustSynchronizationScope n).isSome ↔ n < 2 := by
  rcases n with _ | _ | n
  · decide
  · decide
  · simp only [fromRustSynchronizationScope, Option.isSome_none]
    constructor
    · intro h; exact absurd h (by simp)
    · intro h; omega

theorem fromRustAsmDialect_isSome (n : Nat) :
    (fromRustAsmDialect n).isSome ↔ n < 2 := by
  rcases n with _ | _ | n
  · decide
  · decide
  · simp only [fromRustAsmDialect, Option.isSome_none]
    constructor
    · intro h; exact absurd h (by simp)
    · intro h; omega

theorem fromRustAttribute_isSome (n : Nat) :
    (fromRustAttribute n).isSome ↔ n < 28 := by
  rcases Nat.lt_or_ge n 28 with h | h
  · simp only [h, iff_true]
    interval_cases n <;> rfl
  · obtain ⟨k, rfl⟩ : ∃ k, n = k + 28 := ⟨n - 28, by omega⟩
    have hnone : fromRustAttribute (k + 28) = none := rfl
    simp only [hnone, Option.isSome_none]
    constructor
    · intro h'; exact absurd h' (by simp)
    · intro h'; omega

theorem fromRustLinkage_isSome (n : Nat) :
    (fromRustLinkage n).isSome ↔ n < 11 := by
  rcases Nat.lt_or_ge n 11 with h | h
  · simp only [h, iff_true]
    interval_cases n <;> rfl
  · obtain ⟨k, rfl⟩ : ∃ k, n = k + 11 := ⟨n - 11, by omega⟩
    have hnone : fromRustLinkage (k + 11) = none := rfl
    simp only [hnone, Option.isSome_none]
    constructor
    · intro h'; exact absurd h' (by simp)
    · intro h'; omega

theorem fromRustVisibility_isSome (n : Nat) :
    (fromRustVisibility n).isSome ↔ n < 3 := by
  rcases n with _ | _ | _ | n
  · decide
  · decide
  · decide
  · simp only [fromRustVisibility, Option.isSome_none]
    constructor
    · intro h; exact absurd h (by simp)
    · intro h; omega

theorem fromRustDebugEmissionKind_isSome (n : Nat) :
    (fromRustDebugEmissionKind n).isSome ↔ n < 3 := by
  rcases n with _ | _ | _ | n
  · decide
  · decide
  · decide
  · simp only [fromRustDebugEmissionKind, Option.isSome_none]
    constructor
    · intro h; exact absurd h (by simp)
    · intro h; omega

theorem fromRustChecksumKind_isSome (n : Nat) :
    (fromRustChecksumKind n).isSome ↔ n < 3 := by
  rcases n with _ | _ | _ | n
  · decide
  · decide
  · decide
  · simp only [fromRustChecksumKind, Option.isSome_none]
    constructor
    · intro h; exact absurd h (by simp)
    · intro h; omega

/-- Claim C2: each caller-enum-to-backend-enum mapper (atomic ordering,
synchronization scope, asm dialect, attribute kind, linkage, visibility,
emission kind, checksum kind) returns a backend value exactly on the
recognized enumerator codes and takes the fatal-error path (`none`) on
every other integer: under the precondition that the input is a recognized
enumerator the fatal branch is unreachable, and no unrecognized value is
silently passed through. -/
theorem fromRust_total_on_recognized_fatal_otherwise (n : Nat) :
    ((fromRustAtomicOrdering n).isSome ↔ n ∈ atomicOrderingCodes) ∧
    ((fromRustSynchronizationScope n).isSome ↔ n < 2) ∧
    ((fromRustAsmDialect n).isSome ↔ n < 2) ∧
    ((fromRustAttribute n).isSome ↔ n < 28) ∧
    ((fromRustLinkage n).isSome ↔ n < 11) ∧
    ((fromRustVisibility n).isSome ↔ n < 3) ∧
    ((fromRustDebugEmissionKind n).isSome ↔ n < 3) ∧
    ((fromRustChecksumKind n).isSome ↔ n < 3) :=
  ⟨fromRustAtomicOrdering_isSome n, fromRustSynchronizationScope_isSome n,
   fromRustAsmDialect_isSome n, fromRustAttribute_isSome n,
   fromRustLinkage_isSome n, fromRustVisibility_isSome n,
   fromRustDebugEmissionKind_isSome n, fromRustChecksumKind_isSome n⟩

/-! ### Last-Error slot (RustWrapper.cpp lines 50, 84-97)

`static LLVM_THREAD_LOCAL char *LastError` is one nullable string per
thread; `none` models the null pointer. -/

/-- `LLVMRustGetLastError`: returns the stored message and nulls the slot. -/
def LLVMRustGetLastError (slot : Option String) : Option String × Option String :=
  (slot, none)

/-- `LLVMRustSetLastError`: frees the old message and stores a copy of the
new one, whatever the slot held before. -/
def LLVMRustSetLastError (err : String) (_slot : Option String) : Option String :=
  some err

/-- Claim C3: reading the last-error slot returns the stored message and
clears the slot, so a second read with no intervening failing call returns
empty; setting the slot replaces any previously stored message (and never
clears it: only a read does). -/
theorem lastError_read_clears_set_replaces (slot : Option String) (err : String) :
    (LLVMRustGetLastError slot).1 = slot ∧
    (LLVMRustGetLastError slot).2 = none ∧
    (LLVMRustGetLastError (LLVMRustGetLastError slot).2).1 = none ∧
    LLVMRustSetLastError err slot = some err :=
  ⟨rfl, rfl, rfl, rfl⟩

/-! ### Archive opening (ArchiveWrapper.cpp lines 481-512)

`LLVMRustOpenArchive` first reads the file fully into a memory buffer
(`MemoryBuffer::getFile`), then parses the archive header
(`Archive::create`).  Both steps are environmental and are passed in as
parameters: each either produces a result or fails with an error message.
Buffers and archive objects are identified by opaque numbers. -/

/-- `LLVMRustOpenArchive`, returning the nullable archive handle together
with the last-error slot after the call. -/
def LLVMRustOpenArchive (readFile : Except String Nat)
    (parseArchive : Nat → Except String Nat) (slot : Option String) :
    Option Nat × Option String :=
  match readFile with
  | .error msg => (none, LLVMRustSetLastError msg slot)
  | .ok buf =>
    match parseArchive buf with
    | .error msg => (none, LLVMRustSetLastError msg slot)
    | .ok archive => (some archive, slot)

/-- Claim C4: opening an archive either returns a non-null handle (leaving
the last-error slot untouched), or — exactly when reading the file or
parsing the archive header fails — stores that failure's message in the
last-error slot and returns a null handle; the function is total, so such
failures never abort. -/
theorem openArchive_null_handle_iff_error (readFile : Except String Nat)
    (parseArchive : Nat → Except String Nat) (slot : Option String) :
    (∃ archive, (LLVMRustOpenArchive readFile parseArchive slot).1 = some archive ∧
        (LLVMRustOpenArchive readFile parseArchive slot).2 = slot) ∨
    ((LLVMRustOpenArchive readFile parseArchive slot).1 = none ∧
      ∃ msg, (LLVMRustOpenArchive readFile parseArchive slot).2 = some msg ∧
        (readFile = .error msg ∨
          ∃ buf, readFile = .ok buf ∧ parseArchive buf = .error msg)) := by
  cases readFile with
  | error msg => exact Or.inr ⟨rfl, msg, rfl, Or.inl rfl⟩
  | ok buf =>
    cases hp : parseArchive buf with
    | error msg =>
      refine Or.inr ⟨?_, msg, ?_, Or.inr ⟨buf, rfl, hp⟩⟩ <;>
        simp [LLVMRustOpenArchive, hp, LLVMRustSetLastError]
    | ok archive =>
      refine Or.inl ⟨archive, ?_, ?_⟩ <;> simp [LLVMRustOpenArchive, hp]

/-! ### Exception-handling pads (RustWrapper.cpp lines 1324-1371)

An `LLVMValueRef` is nullable, so pad parents are carried as
`Option LLVMValue`; `tokenNone` is `Constant::getNullValue` of the token
type, the canonical placeholder.  Each record stores exactly the parent
value handed to the backend's `CreateCleanupPad` / `CreateCatchPad` /
`CreateCatchSwitch` call (`none` = a literal null pointer). -/

/-- A backend value: the typed null-token constant or an ordinary value. -/
inductive LLVMValue
  | tokenNone
  | value (id : Nat)
deriving DecidableEq, Repr

/-- A constructed `cleanuppad` instruction. -/
structure CleanupPadInst where
  parentPad : Option LLVMValue
  args : List LLVMValue
deriving DecidableEq, Repr

/-- A constructed `catchpad` instruction. -/
structure CatchPadInst where
  parentPad : Option LLVMValue
  args : List LLVMValue
deriving DecidableEq, Repr

/-- A constructed `catchswitch` instruction. -/
structure CatchSwitchInst where
  parentPad : Option LLVMValue
  unwindDest : Nat
  numHandlers : Nat
deriving DecidableEq, Repr

/-- `LLVMRustBuildCleanupPad` (lines 1324-1336): a null parent pad is
replaced by the typed null-token constant before construction. -/
def LLVMRustBuildCleanupPad (parentPad : Option LLVMValue)
    (args : List LLVMValue) : CleanupPadInst :=
  let parentPad := match parentPad with
    | none => some LLVMValue.tokenNone
    | some v => some v
  { parentPad := parentPad, args := args }

/-- `LLVMRustBuildCatchPad` (lines 1345-1351): the parent pad is handed to
the backend exactly as received, with no null check. -/
def LLVMRustBuildCatchPad (parentPad : Option LLVMValue)
    (args : List LLVMValue) : CatchPadInst :=
  { parentPad := parentPad, args := args }

/-- `LLVMRustBuildCatchSwitch` (lines 1360-1371): a null parent pad is
replaced by the typed null-token constant before construction. -/
def LLVMRustBuildCatchSwitch (parentPad : Option LLVMValue)
    (unwindDest : Nat) (numHandlers : Nat) : CatchSwitchInst :=
  let parentPad := match parentPad with
    | none => some LLVMValue.tokenNone
    | some v => some v
  { parentPad := parentPad, unwindDest := unwindDest, numHandlers := numHandlers }

/-- Counterexample to C5 as stated: constructing a catch-pad with a null
parent pad does not substitute the typed null-token placeholder — the null
parent is passed through to the backend unchanged. -/
theorem catchPad_null_parent_not_substituted :
    (LLVMRustBuildCatchPad none []).parentPad = none ∧
    (LLVMRustBuildCatchPad none []).parentPad ≠ some LLVMValue.tokenNone := by
  constructor
  · rfl
  · intro h; exact Option.noConfusion h

/-- Claim C5 (amended): among the pad-construction operations taking a
parent-pad handle, cleanup-pad and catch-switch substitute the typed
null-token constant for a null parent before construction, while catch-pad
forwards its parent-pad handle unchanged; non-null parents are always
forwarded unchanged. -/
theorem pad_null_parent_substitution (args : List LLVMValue)
    (unwindDest numHandlers : Nat) :
    (LLVMRustBuildCleanupPad none args).parentPad = some LLVMValue.tokenNone ∧
    (LLVMRustBuildCatchSwitch none unwindDest numHandlers).parentPad =
      some LLVMValue.tokenNone ∧
    (∀ parentPad, (LLVMRustBuildCatchPad parentPad args).parentPad = parentPad) ∧
    (∀ v, (LLVMRustBuildCleanupPad (some v) args).parentPad = some v) ∧
    (∀ v, (LLVMRustBuildCatchSwitch (some v) unwindDest numHandlers).parentPad =
      some v) :=
  ⟨rfl, rfl, fun _ => rfl, fun _ => rfl, fun _ => rfl⟩

/-! ### Source-manager diagnostics (RustWrapper.cpp lines 1277-1322)

An `SMDiagnostic` carries a message, a severity kind, an optional location
(`none` models the invalid `SMLoc()`), a 0-based column number of the
error within its line, the ranges the diagnostic stores — which are column
ranges relative to the start of the error's line, as the backend's source
manager produces them — and the bytes of the buffer being parsed.  The
error's byte offset in that buffer is `loc`, and the backend invariant
`columnNo ≤ loc` holds because the error's line starts at byte
`loc - columnNo`. -/

/-- Severity of a source-manager diagnostic (`SourceMgr::DiagKind`). -/
inductive DiagnosticLevel
  | Error
  | Warning
  | Note
  | Remark
deriving DecidableEq, Repr

/-- A source-manager diagnostic. -/
structure SMDiagnostic where
  message : String
  kind : DiagnosticLevel
  loc : Option Nat
  columnNo : Nat
  ranges : List (Nat × Nat)
  buffer : List Nat
deriving DecidableEq, Repr

/-- The out-parameters of `LLVMRustUnpackSMDiagnostic` after the call,
together with its boolean return.  When `returned = false` the location,
buffer and range outputs keep their defaults (the C code leaves them
untouched). -/
structure SMDiagResult where
  returned : Bool
  messageOut : String
  levelOut : DiagnosticLevel
  bufferOut : List Nat
  locOut : Nat
  rangesOut : List (Nat × Nat)
deriving DecidableEq, Repr

/-- `LLVMRustUnpackSMDiagnostic`: writes the message and level, returns
false on an invalid location, and otherwise emits the buffer, the error's
byte offset, and `min maxRanges (number of carried ranges)` ranges, each
carried range shifted by the byte offset of the line start
(`lineStart = loc - columnNo`). -/
def LLVMRustUnpackSMDiagnostic (d : SMDiagnostic) (maxRanges : Nat) :
    SMDiagResult :=
  match d.loc with
  | none =>
    { returned := false, messageOut := d.message, levelOut := d.kind,
      bufferOut := [], locOut := 0, rangesOut := [] }
  | some loc =>
    let numRanges := min maxRanges d.ranges.length
    let lineStart := loc - d.columnNo
    { returned := true, messageOut := d.message, levelOut := d.kind,
      bufferOut := d.buffer, locOut := loc,
      rangesOut := (d.ranges.take numRanges).map
        (fun r => (lineStart + r.1, lineStart + r.2)) }

/-- A concrete diagnostic: the error sits at byte 10 of the buffer, at
column 2 of its line (so the line starts at byte 8), and the diagnostic
carries the line-relative column range (0, 3). -/
def smDiagSample : SMDiagnostic :=
  { message := "expected value", kind := .Error, loc := some 10,
    columnNo := 2, ranges := [(0, 3)], buffer := [] }

/-- Counterexample to C6 as stated: unpacking `smDiagSample` emits the
range (8, 11), i.e. the line-relative range (0, 3) shifted by the byte
offset of the line start — a buffer-relative offset pair, not the
line-relative column range the claim promises. -/
theorem smdiag_ranges_not_line_relative :
    (LLVMRustUnpackSMDiagnostic smDiagSample 8).rangesOut = [(8, 11)] ∧
    (LLVMRustUnpackSMDiagnostic smDiagSample 8).rangesOut ≠ [(0, 3)] := by
  constructor
  · rfl
  · decide

/-- Claim C6 (amended): when unpacking a source-manager diagnostic with a
valid location, the number of emitted ranges equals the minimum of the
caller-supplied maximum and the number of ranges the diagnostic carries,
and every emitted range is the corresponding carried line-relative column
range translated by the byte offset of the start of the error's line — so
the emitted ranges are expressed relative to the start of the parsed
buffer, not relative to the start of the line. -/
theorem smdiag_unpack_count_and_offsets (d : SMDiagnostic) (maxRanges loc : Nat)
    (h : d.loc = some loc) :
    (LLVMRustUnpackSMDiagnostic d maxRanges).rangesOut.length =
      min maxRanges d.ranges.length ∧
    (LLVMRustUnpackSMDiagnostic d maxRanges).rangesOut =
      (d.ranges.take maxRanges).map
        (fun r => ((loc - d.columnNo) + r.1, (loc - d.columnNo) + r.2)) := by
  have htake : d.ranges.take (min maxRanges d.ranges.length) =
      d.ranges.take maxRanges := by
    rcases Nat.le_total maxRanges d.ranges.length with hle | hle
    · rw [Nat.min_eq_left hle]
    · rw [Nat.min_eq_right hle, List.take_length,
        List.take_of_length_le hle]
  constructor
  · simp only [LLVMRustUnpackSMDiagnostic, h, List.length_map, List.length_take]
    omega
  · simp only [LLVMRustUnpackSMDiagnostic, h, htake]

/-- Witness for C6 (amended) at `smDiagSample` with caller maximum 8. -/
theorem smdiag_unpack_count_and_offsets_witness :
    smDiagSample.loc = some 10 ∧
    ((LLVMRustUnpackSMDiagnostic smDiagSample 8).rangesOut.length =
        min 8 smDiagSample.ranges.length ∧
      (LLVMRustUnpackSMDiagnostic smDiagSample 8).rangesOut =
        (smDiagSample.ranges.take 8).map
          (fun r => ((10 - smDiagSample.columnNo) + r.1,
            (10 - smDiagSample.columnNo) + r.2))) :=
  ⟨rfl, smdiag_unpack_count_and_offsets smDiagSample 8 10 rfl⟩

/-! ### Diagnostic-kind classification (RustWrapper.cpp lines 1160-1214)

The backend's `DiagnosticKind` is modelled by one constructor per kind the
`toRust` switch names, plus `DK_OtherRemark` for any unnamed kind inside
the `[DK_FirstRemark, DK_LastRemark]` range and `DK_OtherKind` for any
unnamed kind outside it (the two outcomes of the default branch's range
test). -/

/-- The backend diagnostic kinds as seen by the bridge's classifier. -/
inductive DiagnosticKind
  | DK_InlineAsm
  | DK_StackSize
  | DK_DebugMetadataVersion
  | DK_SampleProfile
  | DK_OptimizationRemark
  | DK_OptimizationRemarkMissed
  | DK_OptimizationRemarkAnalysis
  | DK_OptimizationRemarkAnalysisFPCommute
  | DK_OptimizationRemarkAnalysisAliasing
  | DK_PGOProfile
  | DK_Linker
  | DK_Unsupported
  | DK_OtherRemark
  | DK_OtherKind
deriving DecidableEq, Repr

/-- The caller-side diagnostic taxonomy `LLVMRustDiagnosticKind`
(lines 1160-1176). -/
inductive LLVMRustDiagnosticKind
  | Other
  | InlineAsm
  | StackSize
  | DebugMetadataVersion
  | SampleProfile
  | OptimizationRemark
  | OptimizationRemarkMissed
  | OptimizationRemarkAnalysis
  | OptimizationRemarkAnalysisFPCommute
  | OptimizationRemarkAnalysisAliasing
  | OptimizationRemarkOther
  | OptimizationFailure
  | PGOProfile
  | Linker
  | Unsupported
deriving DecidableEq, Repr

/-- `toRust(DiagnosticKind)` (lines 1178-1209), the classifier behind
`LLVMRustGetDiagInfoKind`. -/
def toRustDiagnosticKind : DiagnosticKind → LLVMRustDiagnosticKind
  | .DK_InlineAsm => .InlineAsm
  | .DK_StackSize => .StackSize
  | .DK_DebugMetadataVersion => .DebugMetadataVersion
  | .DK_SampleProfile => .SampleProfile
  | .DK_OptimizationRemark => .OptimizationRemark
  | .DK_OptimizationRemarkMissed => .OptimizationRemarkMissed
  | .DK_OptimizationRemarkAnalysis => .OptimizationRemarkAnalysis
  | .DK_OptimizationRemarkAnalysisFPCommute => .OptimizationRemarkAnalysisFPCommute
  | .DK_OptimizationRemarkAnalysisAliasing => .OptimizationRemarkAnalysisAliasing
  | .DK_PGOProfile => .PGOProfile
  | .DK_Linker => .Linker
  | .DK_Unsupported => .Unsupported
  | .DK_OtherRemark => .OptimizationRemarkOther
  | .DK_OtherKind => .Other

/-- Counterexample to C7 as stated: classifying a `DK_Unsupported`
diagnostic yields neither the generic catch-all entry `Other` nor the
remark catch-all `OptimizationRemarkOther` — it yields a specific entry. -/
theorem unsupported_not_catch_all :
    toRustDiagnosticKind .DK_Unsupported ≠ LLVMRustDiagnosticKind.Other ∧
    toRustDiagnosticKind .DK_Unsupported ≠
      LLVMRustDiagnosticKind.OptimizationRemarkOther := by
  decide

/-- Claim C7 (amended): classifying a backend diagnostic of the
unsupported kind yields the taxonomy's dedicated `Unsupported` entry — a
total match, so it never crashes and never yields any other entry. -/
theorem unsupported_classified_as_unsupported :
    toRustDiagnosticKind .DK_Unsupported = LLVMRustDiagnosticKind.Unsupported :=
  rfl

/-! ### Static/global debug variables (RustWrapper.cpp lines 855-888)

`LLVMRustDIBuilderCreateStaticVariable` begins with
`cast<llvm::GlobalVariable>(unwrap(V))`, so the value it operates on is
checked to be a `GlobalVariable`; it then applies
`dyn_cast<llvm::ConstantInt>` and `dyn_cast<llvm::ConstantFP>` to that
`GlobalVariable` pointer.  In the backend's class hierarchy
`GlobalVariable`, `ConstantInt` and `ConstantFP` are disjoint leaf classes
(distinct value IDs), so a `dyn_cast` of a value that is dynamically a
`GlobalVariable` to `ConstantInt` or `ConstantFP` always fails — whatever
constant the global's initializer holds. -/

/-- A backend constant, as relevant here. -/
inductive LLVMConstant
  | constInt (value : Int)
  | constFP (bits : Nat)
  | otherConstant
deriving DecidableEq, Repr

/-- The value handed to `LLVMRustDIBuilderCreateStaticVariable`: either a
`GlobalVariable` (carrying its initializer, if any) or some other value. -/
inductive GlobalOperand
  | globalVar (initializer : Option LLVMConstant)
  | otherValue (c : LLVMConstant)
deriving DecidableEq, Repr

/-- `cast<llvm::GlobalVariable>`: succeeds exactly on a `GlobalVariable`;
anything else trips the cast's assertion (modelled as `none`). -/
def castToGlobalVariable : GlobalOperand → Option (Option LLVMConstant)
  | .globalVar initializer => some initializer
  | .otherValue _ => none

/-- `dyn_cast<llvm::ConstantInt>` applied to a `GlobalVariable` pointer:
always fails, because a value whose dynamic type is `GlobalVariable` is
never a `ConstantInt`, regardless of its initializer. -/
def globalVarAsConstantInt (_initializer : Option LLVMConstant) : Option Int :=
  none

/-- `dyn_cast<llvm::ConstantFP>` applied to a `GlobalVariable` pointer:
always fails, for the same reason. -/
def globalVarAsConstantFP (_initializer : Option LLVMConstant) : Option Nat :=
  none

/-- A debug-info expression attached to a global-variable expression. -/
inductive DIExpr
  | constantValue (value : Int)
  | constantValueBits (bits : Nat)
deriving DecidableEq, Repr

/-- The `DIGlobalVariableExpression` node produced for a static variable,
keeping the field the claim is about. -/
structure DIGlobalVariableExpr where
  initExpr : Option DIExpr
deriving DecidableEq, Repr

/-- `LLVMRustDIBuilderCreateStaticVariable`, reduced to how it computes the
attached initializer expression (`none` overall models the failed
`cast<GlobalVariable>` assertion). -/
def LLVMRustDIBuilderCreateStaticVariable (v : GlobalOperand) :
    Option DIGlobalVariableExpr :=
  match castToGlobalVariable v with
  | none => none
  | some initVal =>
    let initExpr : Option DIExpr :=
      match globalVarAsConstantInt initVal with
      | some intVal => some (.constantValue intVal)
      | none =>
        match globalVarAsConstantFP initVal with
        | some fpBits => some (.constantValueBits fpBits)
        | none => none
    some { initExpr := initExpr }

/-- Modelled from the spec: the behavior C8 claims for
`LLVMRustDIBuilderCreateStaticVariable` — when the bound global holds a
simple integer or floating-point constant, a constant-value expression
holding that value is attached; otherwise no initializer expression is
attached. -/
def createStaticVariableClaimed (v : GlobalOperand) :
    Option DIGlobalVariableExpr :=
  match v with
  | .globalVar (some (.constInt value)) =>
    some { initExpr := some (.constantValue value) }
  | .globalVar (some (.constFP bits)) =>
    some { initExpr := some (.constantValueBits bits) }
  | .globalVar _ => some { initExpr := none }
  | .otherValue _ => none

/-- C8 failing input, evaluated: a global variable holding the integer
constant 42 gets no constant-value expression attached (the
`dyn_cast<ConstantInt>` branch is dead, since it inspects the
`GlobalVariable` pointer itself and never the constant), while the claimed
behavior attaches one. -/
theorem staticVariable_constant_never_attached :
    LLVMRustDIBuilderCreateStaticVariable
        (.globalVar (some (.constInt 42))) = some { initExpr := none } ∧
    createStaticVariableClaimed (.globalVar (some (.constInt 42))) =
      some { initExpr := some (.constantValue 42) } :=
  ⟨rfl, rfl⟩

/-! ### Fatal-error handler (RustWrapper.cpp lines 50-71) -/

/-- An observable process-level effect of the fatal handler. -/
inductive FatalEffect
  | writeStderrLine (line : String)
  | runInterruptHandlers
  | exitProcess (code : Nat)
deriving DecidableEq, Repr

/-- `FatalErrorHandler`: prints the reason behind the `LLVM ERROR: `
marker to the standard error stream, runs the backend's registered
interrupt handlers, then exits with code 101. -/
def FatalErrorHandler (reason : String) : List FatalEffect :=
  [.writeStderrLine ("LLVM ERROR: " ++ reason),
   .runInterruptHandlers,
   .exitProcess 101]

/-- Claim C9: for every reason, the installed fatal handler first writes
the reason prefixed with the distinguishing `LLVM ERROR: ` marker to the
standard error stream, then runs the backend's registered
interrupt/cleanup handlers, and then terminates the process with the
internal-compiler-error exit code 101, which differs from the platform
default codes (the backend's own default of 1, and success 0). -/
theorem fatalHandler_reports_then_cleans_up_then_exits_101 (reason : String) :
    FatalErrorHandler reason =
      [FatalEffect.writeStderrLine ("LLVM ERROR: " ++ reason),
       FatalEffect.runInterruptHandlers,
       FatalEffect.exitProcess 101] ∧
    (∃ line, FatalErrorHandler reason =
      FatalEffect.writeStderrLine line ::
        [FatalEffect.runInterruptHandlers, FatalEffect.exitProcess 101] ∧
      line = "LLVM ERROR: " ++ reason) ∧
    (101 : Nat) ≠ 1 ∧ (101 : Nat) ≠ 0 :=
  ⟨rfl, ⟨"LLVM ERROR: " ++ reason, rfl, rfl⟩, by decide, by decide⟩

/-! ### 128-bit constant extraction (RustWrapper.cpp lines 1567-1582)

A `ConstantInt` is a bit width together with its unsigned value (an
`APInt`), so `value < 2 ^ width`.  `sextOrSelf(128)` and `zextOrSelf(128)`
extend the value to 128 bits; `getLoBits(64)` masks the low 64 bits and
`getHiBits(64)` shifts the high 64 bits down. -/

/-- A backend `llvm::ConstantInt`. -/
structure ConstantInt where
  width : Nat
  value : Nat
deriving DecidableEq, Repr

/-- `APInt::sextOrSelf(128)`: for a width below 128, two's-complement
sign-extension to 128 bits (the value is unchanged when the sign bit is
clear, and shifted into the top of the 128-bit range when set); at width
128 the value is returned as is. -/
def sextOrSelf128 (width value : Nat) : Nat :=
  if width < 128 then
    if value < 2 ^ (width - 1) then value else value + (2 ^ 128 - 2 ^ width)
  else value

/-- `LLVMRustConstInt128Get`: fails (leaving the out-parameters `high` and
`low` unchanged) when the constant is wider than 128 bits; otherwise
extends the value to 128 bits — sign-extending when `sext` — and writes
the low and high 64-bit words. -/
def LLVMRustConstInt128Get (c : ConstantInt) (sext : Bool)
    (high low : Nat) : Bool × Nat × Nat :=
  if 128 < c.width then (false, high, low)
  else
    let ap := if sext then sextOrSelf128 c.width c.value else c.value
    (true, ap >>> 64, ap &&& (2 ^ 64 - 1))

/-- The constant's value read as a signed (two's-complement) integer of
its width. -/
def signedValue (c : ConstantInt) : Int :=
  if c.value < 2 ^ (c.width - 1) then (c.value : Int)
  else (c.value : Int) - 2 ^ c.width

/-- The constant's value extended to 128 bits: the signed value reduced
into [0, 2^128) when `sext`, the unsigned value otherwise. -/
def extendTo128 (c : ConstantInt) (sext : Bool) : Nat :=
  if sext then ((signedValue c) % (2 ^ 128 : Int)).toNat else c.value

theorem sextOrSelf128_eq_signed_mod (c : ConstantInt) (hw : 0 < c.width)
    (hv : c.value < 2 ^ c.width) (h128 : c.width ≤ 128) :
    sextOrSelf128 c.width c.value = ((signedValue c) % (2 ^ 128 : Int)).toNat := by
  have hpowN : 2 ^ c.width ≤ 2 ^ 128 := Nat.pow_le_pow_right (by norm_num) h128
  have hpow : (2 : Int) ^ c.width ≤ 2 ^ 128 := by exact_mod_cast hpowN
  have hvI : (c.value : Int) < 2 ^ c.width := by exact_mod_cast hv
  have hvpos : (0 : Int) ≤ (c.value : Int) := Int.natCast_nonneg _
  unfold sextOrSelf128 signedValue
  by_cases hsign : c.value < 2 ^ (c.width - 1)
  · have hlt : (c.value : Int) < 2 ^ 128 := lt_of_lt_of_le hvI hpow
    have hmod : ((c.value : Int)) % (2 ^ 128 : Int) = (c.value : Int) :=
      Int.emod_eq_of_lt hvpos hlt
    simp only [hsign, if_true, hmod, Int.toNat_natCast, ite_self]
  · have hub : (c.value : Int) - 2 ^ c.width < 0 := by linarith
    have hlb : (0 : Int) ≤ (c.value : Int) - 2 ^ c.width + 2 ^ 128 := by linarith
    have h1 : ((c.value : Int) - 2 ^ c.width + 2 ^ 128) % (2 ^ 128 : Int) =
        (c.value : Int) - 2 ^ c.width + 2 ^ 128 :=
      Int.emod_eq_of_lt hlb (by linarith)
    have hshift : ((c.value : Int) - 2 ^ c.width) % (2 ^ 128 : Int) =
        (c.value : Int) - 2 ^ c.width + 2 ^ 128 := by
      have h2 : (((c.value : Int) - 2 ^ c.width) + (2 ^ 128 : Int) * 1) %
          (2 ^ 128 : Int) = ((c.value : Int) - 2 ^ c.width) % (2 ^ 128 : Int) :=
        Int.add_mul_emod_self_left ((c.value : Int) - 2 ^ c.width) (2 ^ 128) 1
      rw [← h2]
      rw [mul_one]
      exact h1
    simp only [hsign, if_false, hshift]
    by_cases hwlt : c.width < 128
    · simp only [hwlt, if_true]
      zify [Nat.le_of_lt (Nat.lt_of_lt_of_le hv hpowN), hpowN]
      rw [Int.toNat_of_nonneg hlb]
      push_cast
      ring
    · simp only [hwlt, if_false]
      have hweq : c.width = 128 := by omega
      rw [hweq]
      have hcancel : (c.value : Int) - 2 ^ 128 + 2 ^ 128 = (c.value : Int) := by
        ring
      rw [hcancel, Int.toNat_natCast]

/-- Claim C10: extracting a 128-bit constant returns false and leaves both
output words unmodified whenever the constant's bit width exceeds 128;
otherwise it returns true and writes the low and high 64-bit halves of the
constant's value sign-extended to 128 bits when `sext` is true and
zero-extended when `sext` is false. -/
theorem constInt128Get_spec (c : ConstantInt) (sext : Bool) (high low : Nat)
    (hw : 0 < c.width) (hv : c.value < 2 ^ c.width) :
    (128 < c.width → LLVMRustConstInt128Get c sext high low = (false, high, low)) ∧
    (c.width ≤ 128 → LLVMRustConstInt128Get c sext high low =
      (true, extendTo128 c sext / 2 ^ 64, extendTo128 c sext % 2 ^ 64)) := by
  constructor
  · intro h
    simp only [LLVMRustConstInt128Get, h, if_true]
  · intro h
    have hnot : ¬ 128 < c.width := Nat.not_lt.mpr h
    have hap : (if sext then sextOrSelf128 c.width c.value else c.value) =
        extendTo128 c sext := by
      cases sext with
      | false => simp [extendTo128]
      | true => simp [extendTo128, sextOrSelf128_eq_signed_mod c hw hv h]
    simp only [LLVMRustConstInt128Get, hnot, if_false, hap,
      Nat.shiftRight_eq_div_pow, Nat.and_pow_two_sub_one_eq_mod]

/-- Witness for C10 at the 8-bit constant 200 (signed value -56) with
sign-extension requested, and at a 130-bit constant for the failure
branch. -/
theorem constInt128Get_spec_witness :
    (0 < (8 : Nat) ∧ (200 : Nat) < 2 ^ 8 ∧ (8 : Nat) ≤ 128 ∧
      LLVMRustConstInt128Get ⟨8, 200⟩ true 3 4 =
        (true, extendTo128 ⟨8, 200⟩ true / 2 ^ 64,
          extendTo128 ⟨8, 200⟩ true % 2 ^ 64)) ∧
    (0 < (130 : Nat) ∧ (1 : Nat) < 2 ^ 130 ∧ 128 < (130 : Nat) ∧
      LLVMRustConstInt128Get ⟨130, 1⟩ false 3 4 = (false, 3, 4)) :=
  ⟨⟨by decide, by decide, by decide,
    (constInt128Get_spec ⟨8, 200⟩ true 3 4 (by decide) (by decide)).2 (by decide)⟩,
   ⟨by decide, by norm_num, by decide,
    (constInt128Get_spec ⟨130, 1⟩ false 3 4 (by decide) (by norm_num)).1 (by decide)⟩⟩

end RustLLVM
